import Mathlib

/-!
Shallow embedding of the JWT authentication core of the restaurant-management
backend: the token helper (`GenerateAllTokens`, `UpdateAllTokens`,
`ValidateToken` in helpers/tokenHelper.go) and the `Authentication`
middleware, together with the slice of the jwt-go v3 library that those
functions exercise.

Token strings are modelled symbolically, by how `jwt.ParseWithClaims`
consumes them: a Go string either fails to split into three dot-separated
segments, fails base64url/JSON decoding of its header or claims segment, or
decodes into a claims struct plus an HMAC-SHA256 signature.  The HMAC is
modelled as a formal pair of the signing key and the signed claims, so that
verification succeeds exactly when the token was signed with the verifier's
key over the same claims (a deterministic, unforgeable MAC).
-/

/-- Claims payload of the `SignedDetails` struct: the identity fields plus
the embedded `jwt.StandardClaims.ExpiresAt` Unix timestamp (the other
standard claim fields are never set by this codebase and stay zero). -/
structure SignedDetails where
  email : String
  first_name : String
  last_name : String
  uid : String
  expiresAt : Int
deriving DecidableEq

/-- Symbolic HMAC-SHA256 signature: the signature produced with `key` over
the encoded claims.  A presented signature verifies against a key and a
claims payload exactly when both components agree. -/
structure Mac where
  key : String
  signed : SignedDetails
deriving DecidableEq

/-- Symbolic view of a Go token string, partitioned by how the jwt-go parser
consumes it: the empty string, a string with the wrong number of
dot-separated segments, a three-segment string whose header or claims
segment fails base64url/JSON decoding (carrying the decoder's error text),
or a compact token carrying decodable claims and a signature. -/
inductive TokenString where
  | empty : TokenString
  | wrongSegments (n : Nat) : TokenString
  | badHeaderSegment (innerErr : String) : TokenString
  | badClaimsSegment (innerErr : String) : TokenString
  | compact (claims : SignedDetails) (sig : Mac) : TokenString
deriving DecidableEq

/-- Error classes produced by the jwt-go parser/validator on the paths this
codebase reaches. -/
inductive ParseErr where
  | malformedSegments : ParseErr
  | malformedEncoding (inner : String) : ParseErr
  | signatureInvalid : ParseErr
  | expired (delta : Int) : ParseErr
deriving DecidableEq

/-- Text of `err.Error()` as seen by `ValidateToken`, following jwt-go: a
validation error with an inner error prints the inner error's text,
otherwise its own message. -/
def errText : ParseErr → String
  | ParseErr.malformedSegments => "token contains an invalid number of segments"
  | ParseErr.malformedEncoding inner => inner
  | ParseErr.signatureInvalid => "signature is invalid"
  | ParseErr.expired delta => "token is expired by " ++ toString delta

/-- Outcome of running a Go computation that may panic (`log.Panic` or a
runtime nil-pointer dereference). -/
inductive GoResult (α : Type) where
  | ok (val : α) : GoResult α
  | panic (msg : String) : GoResult α
deriving DecidableEq

/-- The `*jwt.Token` state that `ValidateToken` inspects after parsing:
`claims` is `none` while the parser has not yet assigned the claims object
(in Go the `Claims` interface field is still nil), and `valid` mirrors
`Token.Valid`. -/
structure GoToken where
  claims : Option SignedDetails
  valid : Bool
deriving DecidableEq

/-- jwt-go `StandardClaims.Valid` restricted to the fields this codebase
sets: with only `ExpiresAt` populated, validation fails exactly when
`ExpiresAt` is nonzero and the current time is strictly past it, reporting
how far past (`verifyExp` treats a zero `exp` as not required). -/
def standardClaimsValid (now : Int) (c : SignedDetails) : Option ParseErr :=
  if c.expiresAt ≠ 0 ∧ now > c.expiresAt then
    some (ParseErr.expired (now - c.expiresAt))
  else
    none

/-- jwt-go `ParseWithClaims` with a key function returning the secret key:
yields the possibly-nil `*jwt.Token` and the possibly-nil error.  A wrong
segment count returns a nil token; a bad header segment returns a token
whose claims field is still nil; a bad claims segment returns the
zero-valued claims object that was passed in; a decodable token gets its
claims validated and its signature verified (claims validation runs first
and a signature failure overwrites the reported error, as in jwt-go). -/
def parseWithClaims (key : String) (now : Int) (s : TokenString) :
    Option GoToken × Option ParseErr :=
  match s with
  | TokenString.empty => (none, some ParseErr.malformedSegments)
  | TokenString.wrongSegments _ => (none, some ParseErr.malformedSegments)
  | TokenString.badHeaderSegment inner =>
      (some ⟨none, false⟩, some (ParseErr.malformedEncoding inner))
  | TokenString.badClaimsSegment inner =>
      (some ⟨some ⟨"", "", "", "", 0⟩, false⟩, some (ParseErr.malformedEncoding inner))
  | TokenString.compact cl sig =>
      if sig.key = key ∧ sig.signed = cl then
        match standardClaimsValid now cl with
        | none => (some ⟨some cl, true⟩, none)
        | some e => (some ⟨some cl, false⟩, some e)
      else
        (some ⟨some cl, false⟩, some ParseErr.signatureInvalid)

/-- Go runtime message raised by dereferencing a nil pointer. -/
def nilDerefMsg : String :=
  "runtime error: invalid memory address or nil pointer dereference"

/-- helpers/tokenHelper.go `ValidateToken`: parses the token, then reads
`token.Claims` — a nil-pointer dereference, hence a panic, when the parser
returned a nil token.  When the claims cast fails the message is
"the token is invalid", when `ExpiresAt` is strictly before now it is
"token is expired"; in both branches the message is then overwritten by
`err.Error()` whenever the parse error is non-nil.  Otherwise the claims
are returned with an empty message.  The success branch never consults the
parse error, so a signature failure on an unexpired token falls through to
success. -/
def ValidateToken (key : String) (now : Int) (signedToken : TokenString) :
    GoResult (Option SignedDetails × String) :=
  match parseWithClaims key now signedToken with
  | (none, _) => GoResult.panic nilDerefMsg
  | (some token, err) =>
      match token.claims with
      | none =>
          GoResult.ok (none, match err with
            | some e => errText e
            | none => "the token is invalid")
      | some claims =>
          if claims.expiresAt < now then
            GoResult.ok (some claims, match err with
              | some e => errText e
              | none => "token is expired")
          else
            GoResult.ok (some claims, "")

/-- `SignedString` for HS256: the compact serialization of the claims
together with the HMAC of the signing key over them. -/
def signedString (key : String) (c : SignedDetails) : TokenString :=
  TokenString.compact c ⟨key, c⟩

/-- Outcome of one `SignedString` call; HMAC-SHA256 signing of a
marshalable claims struct never fails in the library, so the outcome is
always `ok`. -/
def signedStringE (key : String) (c : SignedDetails) : Except String TokenString :=
  Except.ok (signedString key c)

/-- Go pattern `t, err := x.SignedString(key)`: on failure the string result
is the empty string and the error is set. -/
def signResultParts (r : Except String TokenString) : TokenString × Option String :=
  match r with
  | Except.ok t => (t, none)
  | Except.error e => (TokenString.empty, some e)

/-- Error-handling skeleton of `GenerateAllTokens`, parameterised by the two
signing outcomes.  As in the source, the `err` variable assigned by the
first `SignedString` call is reassigned by the second one before the single
`if err != nil { log.Panic(err) }` guard runs, so only a failure of the
refresh-token signing panics. -/
def generateAllTokensErrFlow (r1 r2 : Except String TokenString) :
    GoResult (TokenString × TokenString) :=
  let p1 := signResultParts r1
  let p2 := signResultParts r2
  match p2.2 with
  | some e => GoResult.panic e
  | none => GoResult.ok (p1.1, p2.1)

/-- helpers/tokenHelper.go `GenerateAllTokens`: builds access claims carrying
the full identity with expiry now + 24h, and refresh claims with empty
identity fields and expiry now + 168h, signs both with the secret key and
runs the error-handling skeleton.  The two `time.Now()` calls of the source
are modelled as the single issuance instant `now`. -/
def GenerateAllTokens (key : String) (now : Int)
    (email firstName lastName uid : String) :
    GoResult (TokenString × TokenString) :=
  let claims : SignedDetails := ⟨email, firstName, lastName, uid, now + 24 * 3600⟩
  let refreshClaims : SignedDetails := ⟨"", "", "", "", now + 168 * 3600⟩
  generateAllTokensErrFlow (signedStringE key claims) (signedStringE key refreshClaims)

/-- Claims embedded in a compact token string, as decoded by any conformant
parser. -/
def claimsOfTok : TokenString → Option SignedDetails
  | TokenString.compact cl _ => some cl
  | _ => none

/-- Fields of a stored user document touched by `UpdateAllTokens`' `$set`,
plus the `user_id` key it filters on; the remaining user fields are
untouched by the update and elided. -/
structure UserDoc where
  user_id : String
  token : Option TokenString
  refresh_token : Option TokenString
  updated_at : Option Int
deriving DecidableEq

/-- Mongo `UpdateOne` with filter `{user_id: userId}`, update
`{$set: {token, refresh_token, updated_at}}` and `Upsert: true`: rewrites
the first matching document, or appends a fresh document built from the
filter key and the `$set` fields when no document matches. -/
def updateOneUpsert (docs : List UserDoc) (userId : String)
    (tok ref : TokenString) (t : Int) : List UserDoc :=
  match docs with
  | [] => [⟨userId, some tok, some ref, some t⟩]
  | d :: rest =>
      if d.user_id = userId then
        ⟨d.user_id, some tok, some ref, some t⟩ :: rest
      else
        d :: updateOneUpsert rest userId tok ref t

/-- helpers/tokenHelper.go `UpdateAllTokens`: upserts the user's token
record keyed by `user_id`, setting both tokens and a refreshed `updated_at`
stamp. -/
def UpdateAllTokens (signedToken signedRefreshToken : TokenString)
    (userId : String) (now : Int) (docs : List UserDoc) : List UserDoc :=
  updateOneUpsert docs userId signedToken signedRefreshToken now

/-- Number of stored documents whose `user_id` equals the given key. -/
def countKey (docs : List UserDoc) (userId : String) : Nat :=
  (docs.filter (fun d => d.user_id == userId)).length

/-- First stored document whose `user_id` equals the given key. -/
def findKey (docs : List UserDoc) (userId : String) : Option UserDoc :=
  docs.find? (fun d => d.user_id == userId)

/-- The request/response state of a `gin.Context` that the middleware
touches: the incoming headers, the keys written by `c.Set`, the JSON error
response written by `c.JSON` (status code and the body's "error" field),
and the abort flag. -/
structure GinContext where
  reqHeaders : List (String × TokenString)
  keys : List (String × String)
  statusBody : Option (Nat × String)
  aborted : Bool
deriving DecidableEq

/-- `http.Header.Get`: the first value stored for the key, or the empty
string when the header is absent. -/
def headerGet (hs : List (String × TokenString)) (k : String) : TokenString :=
  match hs.find? (fun p => p.1 == k) with
  | some p => p.2
  | none => TokenString.empty

/-- middleware/authMiddleware.go `Authentication()`: reads the `token`
header; rejects with status 500 and body error "No Authorization header
provided" and aborts when it is empty; otherwise validates the token and,
when the returned message is nonempty, rejects with status 500 and that
message and aborts; otherwise stores the four identity claims in the
context and lets the chain continue.  On the success path Go dereferences
the claims pointer, which panics if it were nil. -/
def Authentication (key : String) (now : Int) (c : GinContext) :
    GoResult GinContext :=
  let clientToken := headerGet c.reqHeaders "token"
  if clientToken = TokenString.empty then
    GoResult.ok { c with
      statusBody := some (500, "No Authorization header provided"),
      aborted := true }
  else
    match ValidateToken key now clientToken with
    | GoResult.panic m => GoResult.panic m
    | GoResult.ok (claimsOpt, msg) =>
        if msg ≠ "" then
          GoResult.ok { c with statusBody := some (500, msg), aborted := true }
        else
          match claimsOpt with
          | none => GoResult.panic nilDerefMsg
          | some claims =>
              GoResult.ok { c with keys := c.keys ++
                [("email", claims.email), ("first_name", claims.first_name),
                 ("last_name", claims.last_name), ("uid", claims.uid)] }

/-- A protected route: the engine runs the `Authentication` middleware, and
the downstream handler runs only when the middleware did not abort the
context. -/
def runProtected (key : String) (now : Int) (handler : GinContext → GinContext)
    (c : GinContext) : GoResult GinContext :=
  match Authentication key now c with
  | GoResult.panic m => GoResult.panic m
  | GoResult.ok c' =>
      if c'.aborted then GoResult.ok c' else GoResult.ok (handler c')

/-- Process-wide state visible to the token helper: the `SECRET_KEY` read at
startup, the current clock, and the user collection. -/
structure World where
  secretKey : String
  nowUnix : Int
  userDocs : List UserDoc
deriving DecidableEq

/-- `ValidateToken` threaded through the process state: the function body
reads only `SECRET_KEY` and `time.Now()` and performs no collection
operation, so the state passes through unchanged. -/
def validateTokenW (w : World) (s : TokenString) :
    World × GoResult (Option SignedDetails × String) :=
  (w, ValidateToken w.secretKey w.nowUnix s)

/-- Result carrying the expired-token error: the message is the literal
"token is expired", possibly extended by jwt-go's " by <delta>" suffix. -/
def returnsExpired (r : GoResult (Option SignedDetails × String)) : Prop :=
  ∃ c rest, r = GoResult.ok (c, "token is expired" ++ rest)

/-! Helper lemmas about the messages `ValidateToken` produces. -/

theorem expiredPrefix_ne_empty (rest : String) : "token is expired" ++ rest ≠ "" := by
  intro h
  have h2 := congrArg String.length h
  rw [String.length_append] at h2
  have h3 : ("token is expired" : String).length = 16 := rfl
  have h4 : ("" : String).length = 0 := rfl
  omega

theorem expiredBy_eq_append (x : String) :
    "token is expired by " ++ x = "token is expired" ++ (" by " ++ x) := by
  rw [← String.append_assoc]
  have h : ("token is expired" ++ " by " : String) = "token is expired by " := by decide
  rw [h]

theorem validate_signedString_success (key : String) (nowV : Int) (cl : SignedDetails)
    (h : nowV ≤ cl.expiresAt) :
    ValidateToken key nowV (signedString key cl) = GoResult.ok (some cl, "") := by
  have h2 : ¬ cl.expiresAt < nowV := by omega
  simp [ValidateToken, parseWithClaims, signedString, standardClaimsValid, h2]

theorem validate_signedString_expired (key : String) (now : Int) (cl : SignedDetails)
    (h0 : cl.expiresAt ≠ 0) (h : now > cl.expiresAt) :
    ValidateToken key now (signedString key cl) =
      GoResult.ok (some cl, "token is expired by " ++ toString (now - cl.expiresAt)) := by
  have h2 : cl.expiresAt < now := by omega
  simp [ValidateToken, parseWithClaims, signedString, standardClaimsValid, errText,
    h0, h2]

theorem validate_signedString_expiredZero (key : String) (now : Int) (cl : SignedDetails)
    (h0 : cl.expiresAt = 0) (h : now > 0) :
    ValidateToken key now (signedString key cl) =
      GoResult.ok (some cl, "token is expired") := by
  have h2 : cl.expiresAt < now := by omega
  simp [ValidateToken, parseWithClaims, signedString, standardClaimsValid, errText,
    h0, h2]
  omega

/-- C1: the claim "every malformed input (wrong segment count, invalid
base64, tampered signature byte) makes `ValidateToken` return InvalidToken,
never a panic and never success" fails on the code: a three-segment token
whose claims decode to an unexpired identity but whose signature was
produced under a different key is returned as a success with empty error
message (the success branch never consults the parse error), and a
one-segment string makes the parser return a nil token, which
`ValidateToken` dereferences — a nil-pointer panic. -/
theorem C1_tampered_accept_and_segment_panic :
    ValidateToken "k" 0
        (TokenString.compact ⟨"a@b.c", "Ada", "Lovelace", "u1", 100⟩
          ⟨"attacker", ⟨"a@b.c", "Ada", "Lovelace", "u1", 100⟩⟩) =
      GoResult.ok (some ⟨"a@b.c", "Ada", "Lovelace", "u1", 100⟩, "") ∧
    ValidateToken "k" 0 (TokenString.wrongSegments 1) = GoResult.panic nilDerefMsg := by
  constructor
  · rfl
  · rfl

/-- C5: in `GenerateAllTokens` the error of the first `SignedString` call is
shadowed by the reassignment from the second call, so when signing the
access token fails and signing the refresh token succeeds the function
returns the pair (empty string, refresh token) with a nil error instead of
panicking; only a failure of the second (refresh-token) signing reaches the
`log.Panic` guard. -/
theorem C5_sign_error_shadowing :
    generateAllTokensErrFlow (Except.error "hmac: signing failure")
        (Except.ok (signedString "k" ⟨"", "", "", "", 604800⟩)) =
      GoResult.ok (TokenString.empty, signedString "k" ⟨"", "", "", "", 604800⟩) ∧
    generateAllTokensErrFlow (Except.ok (signedString "k" ⟨"a", "b", "c", "d", 86400⟩))
        (Except.error "hmac: signing failure") =
      GoResult.panic "hmac: signing failure" := by
  constructor
  · rfl
  · rfl

/-- C6: issuance produces an access token whose embedded claims carry the
full input identity with expiry 24 hours after issuance, and a refresh token
whose identity fields are all empty with expiry 168 hours after issuance. -/
theorem C6_issuance_claims (key : String) (now : Int)
    (email firstName lastName uid : String) :
    ∃ acc ref,
      GenerateAllTokens key now email firstName lastName uid = GoResult.ok (acc, ref) ∧
      claimsOfTok acc = some ⟨email, firstName, lastName, uid, now + 24 * 3600⟩ ∧
      claimsOfTok ref = some ⟨"", "", "", "", now + 168 * 3600⟩ :=
  ⟨_, _, rfl, rfl, rfl⟩

/-- C2: validating the access token produced by issuing a pair for an
identity, at any time strictly before that token's expiry, succeeds and
returns claims equal to the input identity. -/
theorem C2_roundtrip_identity (key : String) (now : Int)
    (email firstName lastName uid : String) (acc ref : TokenString) (nowV : Int)
    (hgen : GenerateAllTokens key now email firstName lastName uid =
      GoResult.ok (acc, ref))
    (hlt : nowV < now + 24 * 3600) :
    ∃ cl, ValidateToken key nowV acc = GoResult.ok (some cl, "") ∧
      cl.email = email ∧ cl.first_name = firstName ∧
      cl.last_name = lastName ∧ cl.uid = uid := by
  have h : (GoResult.ok
      (signedString key ⟨email, firstName, lastName, uid, now + 24 * 3600⟩,
        signedString key ⟨"", "", "", "", now + 168 * 3600⟩) :
      GoResult (TokenString × TokenString)) = GoResult.ok (acc, ref) := hgen
  injection h with h'
  have hacc : acc =
      signedString key ⟨email, firstName, lastName, uid, now + 24 * 3600⟩ :=
    (congrArg Prod.fst h').symm
  subst hacc
  exact ⟨⟨email, firstName, lastName, uid, now + 24 * 3600⟩,
    validate_signedString_success key nowV _ (show nowV ≤ now + 24 * 3600 by omega),
    rfl, rfl, rfl, rfl⟩

/-- Witness for C2 at a concrete identity, issued at time 0 and validated at
time 1. -/
theorem C2_roundtrip_identity_witness :
    GenerateAllTokens "k" 0 "a@b.c" "Ada" "Lovelace" "u1" =
      GoResult.ok (signedString "k" ⟨"a@b.c", "Ada", "Lovelace", "u1", 0 + 24 * 3600⟩,
        signedString "k" ⟨"", "", "", "", 0 + 168 * 3600⟩) ∧
    (1 : Int) < 0 + 24 * 3600 ∧
    (∃ cl, ValidateToken "k" 1
        (signedString "k" ⟨"a@b.c", "Ada", "Lovelace", "u1", 0 + 24 * 3600⟩) =
        GoResult.ok (some cl, "") ∧
      cl.email = "a@b.c" ∧ cl.first_name = "Ada" ∧
      cl.last_name = "Lovelace" ∧ cl.uid = "u1") :=
  ⟨rfl, by omega,
    C2_roundtrip_identity "k" 0 "a@b.c" "Ada" "Lovelace" "u1"
      (signedString "k" ⟨"a@b.c", "Ada", "Lovelace", "u1", 0 + 24 * 3600⟩)
      (signedString "k" ⟨"", "", "", "", 0 + 168 * 3600⟩) 1 rfl (by omega)⟩

/-- C3 counterexample: a correctly signed token whose expiry equals the
current time (now = expires_at = 100) is accepted with an empty message, so
"ValidateToken returns ExpiredToken iff the current time is at or after
expires_at" fails at the boundary: the right-hand side holds while the
left-hand side does not. -/
theorem C3_boundary_counterexample :
    ¬ (returnsExpired (ValidateToken "k" 100
        (signedString "k" ⟨"a@b.c", "Ada", "Lovelace", "u1", 100⟩)) ↔
      (100 : Int) ≥ 100) := by
  intro hiff
  obtain ⟨c, rest, hc⟩ := hiff.mpr (le_refl 100)
  have hval : ValidateToken "k" 100
      (signedString "k" ⟨"a@b.c", "Ada", "Lovelace", "u1", 100⟩) =
      GoResult.ok (some ⟨"a@b.c", "Ada", "Lovelace", "u1", 100⟩, "") := rfl
  rw [hval] at hc
  injection hc with h1
  exact expiredPrefix_ne_empty rest (congrArg Prod.snd h1).symm

/-- C3 amended: for a well-formed correctly signed token, `ValidateToken`
returns the expired-token error iff the current time is strictly after the
token's `expires_at` (at exactly `expires_at` the token is still
accepted). -/
theorem C3_expired_iff_strictly_after (key : String) (now : Int) (cl : SignedDetails) :
    returnsExpired (ValidateToken key now (signedString key cl)) ↔
      now > cl.expiresAt := by
  constructor
  · intro hexp
    by_contra hnot
    have hval := validate_signedString_success key now cl (by omega)
    obtain ⟨c, rest, hc⟩ := hexp
    rw [hval] at hc
    injection hc with h1
    exact expiredPrefix_ne_empty rest (congrArg Prod.snd h1).symm
  · intro hgt
    by_cases h0 : cl.expiresAt = 0
    · refine ⟨some cl, "", ?_⟩
      rw [validate_signedString_expiredZero key now cl h0 (by omega)]
      rw [String.append_empty]
    · refine ⟨some cl, " by " ++ toString (now - cl.expiresAt), ?_⟩
      rw [validate_signedString_expired key now cl h0 hgt]
      rw [expiredBy_eq_append]

/-- C4: a request without the `token` header is rejected with status 500 and
body error "No Authorization header provided", the context is aborted, and
the downstream handler never runs — the outcome is the same whatever the
handler is. -/
theorem C4_missing_header_rejected (key : String) (now : Int) (c : GinContext)
    (h1 h2 : GinContext → GinContext)
    (hnone : c.reqHeaders.find? (fun p => p.1 == "token") = none) :
    runProtected key now h1 c =
      GoResult.ok { c with
        statusBody := some (500, "No Authorization header provided"),
        aborted := true } ∧
    runProtected key now h1 c = runProtected key now h2 c := by
  have hget : headerGet c.reqHeaders "token" = TokenString.empty := by
    simp [headerGet, hnone]
  constructor
  · simp [runProtected, Authentication, hget]
  · simp [runProtected, Authentication, hget]

/-- Witness for C4 on a concrete request with no headers at all. -/
theorem C4_missing_header_rejected_witness :
    (([] : List (String × TokenString)).find? (fun p => p.1 == "token") = none) ∧
    runProtected "k" 0 id (⟨[], [], none, false⟩ : GinContext) =
      GoResult.ok
        (⟨[], [], some (500, "No Authorization header provided"), true⟩ : GinContext) ∧
    runProtected "k" 0 id (⟨[], [], none, false⟩ : GinContext) =
      runProtected "k" 0 (fun x => x) (⟨[], [], none, false⟩ : GinContext) :=
  ⟨rfl,
    C4_missing_header_rejected "k" 0 ⟨[], [], none, false⟩ id (fun x => x) rfl⟩

/-! Store lemmas for the upsert performed by `UpdateAllTokens`. -/

theorem countKey_updateOneUpsert (docs : List UserDoc) (uid : String)
    (tok ref : TokenString) (t : Int) :
    countKey (updateOneUpsert docs uid tok ref t) uid =
      if countKey docs uid = 0 then 1 else countKey docs uid := by
  induction docs with
  | nil => simp [updateOneUpsert, countKey]
  | cons d rest ih =>
      by_cases h : d.user_id = uid
      · simp [updateOneUpsert, countKey, h, List.filter_cons]
      · simp only [updateOneUpsert, if_neg h]
        simp only [countKey, List.filter_cons] at ih ⊢
        have hb : (d.user_id == uid) = false := by
          simp [h]
        simp only [hb, Bool.false_eq_true, if_false]
        exact ih

theorem findKey_updateOneUpsert (docs : List UserDoc) (uid : String)
    (tok ref : TokenString) (t : Int) :
    findKey (updateOneUpsert docs uid tok ref t) uid =
      some ⟨uid, some tok, some ref, some t⟩ := by
  induction docs with
  | nil => simp [updateOneUpsert, findKey]
  | cons d rest ih =>
      by_cases h : d.user_id = uid
      · simp [updateOneUpsert, findKey, h]
      · simp only [updateOneUpsert, if_neg h]
        simp only [findKey] at ih ⊢
        have hb : (d.user_id == uid) = false := by
          simp [h]
        simp [List.find?_cons, hb]
        exact ih

theorem length_updateOneUpsert (docs : List UserDoc) (uid : String)
    (tok ref : TokenString) (t : Int) :
    (updateOneUpsert docs uid tok ref t).length =
      docs.length + (if countKey docs uid = 0 then 1 else 0) := by
  induction docs with
  | nil => simp [updateOneUpsert, countKey]
  | cons d rest ih =>
      by_cases h : d.user_id = uid
      · simp [updateOneUpsert, countKey, h, List.filter_cons]
      · simp only [updateOneUpsert, if_neg h]
        simp only [countKey, List.filter_cons] at ih ⊢
        have hb : (d.user_id == uid) = false := by
          simp [h]
        simp only [hb, Bool.false_eq_true, if_false, List.length_cons]
        rw [ih]
        omega

/-- C7: starting from a store holding at most one token record for the
subject, persisting a pair and then persisting another pair for the same
subject keeps exactly one record for that subject, does not grow the store
on the second write (overwrite, not duplicate), and leaves the second pair
as the stored record; the first write creates the record when absent. -/
theorem C7_upsert_overwrites (docs : List UserDoc) (uid : String)
    (t1 r1 : TokenString) (τ1 : Int) (t2 r2 : TokenString) (τ2 : Int)
    (hone : countKey docs uid ≤ 1) :
    countKey (UpdateAllTokens t1 r1 uid τ1 docs) uid = 1 ∧
    countKey (UpdateAllTokens t2 r2 uid τ2 (UpdateAllTokens t1 r1 uid τ1 docs)) uid = 1 ∧
    (UpdateAllTokens t2 r2 uid τ2 (UpdateAllTokens t1 r1 uid τ1 docs)).length =
      (UpdateAllTokens t1 r1 uid τ1 docs).length ∧
    findKey (UpdateAllTokens t2 r2 uid τ2 (UpdateAllTokens t1 r1 uid τ1 docs)) uid =
      some ⟨uid, some t2, some r2, some τ2⟩ := by
  have hc1 : countKey (UpdateAllTokens t1 r1 uid τ1 docs) uid = 1 := by
    rw [UpdateAllTokens, countKey_updateOneUpsert]
    by_cases h : countKey docs uid = 0
    · simp [h]
    · simp [h]
      omega
  have e2 : UpdateAllTokens t2 r2 uid τ2 (UpdateAllTokens t1 r1 uid τ1 docs) =
      updateOneUpsert (UpdateAllTokens t1 r1 uid τ1 docs) uid t2 r2 τ2 := rfl
  refine ⟨hc1, ?_, ?_, ?_⟩
  · rw [e2, countKey_updateOneUpsert, hc1]
    simp
  · rw [e2, length_updateOneUpsert, hc1]
    simp
  · rw [e2, findKey_updateOneUpsert]

/-- Witness for C7 on the empty store: the first upsert creates the record,
the second overwrites it. -/
theorem C7_upsert_overwrites_witness :
    countKey [] "u1" ≤ 1 ∧
    (countKey (UpdateAllTokens TokenString.empty TokenString.empty "u1" 5 []) "u1" = 1 ∧
      countKey (UpdateAllTokens (TokenString.wrongSegments 1) (TokenString.wrongSegments 2)
        "u1" 9 (UpdateAllTokens TokenString.empty TokenString.empty "u1" 5 [])) "u1" = 1 ∧
      (UpdateAllTokens (TokenString.wrongSegments 1) (TokenString.wrongSegments 2)
        "u1" 9 (UpdateAllTokens TokenString.empty TokenString.empty "u1" 5 [])).length =
        (UpdateAllTokens TokenString.empty TokenString.empty "u1" 5 []).length ∧
      findKey (UpdateAllTokens (TokenString.wrongSegments 1) (TokenString.wrongSegments 2)
        "u1" 9 (UpdateAllTokens TokenString.empty TokenString.empty "u1" 5 [])) "u1" =
        some ⟨"u1", some (TokenString.wrongSegments 1),
          some (TokenString.wrongSegments 2), some 9⟩) :=
  ⟨by decide,
    C7_upsert_overwrites [] "u1" TokenString.empty TokenString.empty 5
      (TokenString.wrongSegments 1) (TokenString.wrongSegments 2) 9 (by decide)⟩

/-- C8: validation is a pure function of the token string, the clock and the
static signing key: it returns the process state unchanged, and two runs
over worlds agreeing on key and clock — in particular, worlds with different
stored user documents — return identical results. -/
theorem C8_validate_pure (w1 w2 : World) (s : TokenString)
    (hkey : w1.secretKey = w2.secretKey) (hnow : w1.nowUnix = w2.nowUnix) :
    (validateTokenW w1 s).1 = w1 ∧
    (validateTokenW w1 s).2 = (validateTokenW w2 s).2 := by
  refine ⟨rfl, ?_⟩
  simp [validateTokenW, hkey, hnow]

/-- Witness for C8 on two worlds sharing key and clock but holding different
user collections. -/
theorem C8_validate_pure_witness :
    (⟨"k", 7, []⟩ : World).secretKey =
      (⟨"k", 7, [⟨"u1", none, none, none⟩]⟩ : World).secretKey ∧
    (⟨"k", 7, []⟩ : World).nowUnix =
      (⟨"k", 7, [⟨"u1", none, none, none⟩]⟩ : World).nowUnix ∧
    ((validateTokenW ⟨"k", 7, []⟩ TokenString.empty).1 = ⟨"k", 7, []⟩ ∧
      (validateTokenW ⟨"k", 7, []⟩ TokenString.empty).2 =
        (validateTokenW ⟨"k", 7, [⟨"u1", none, none, none⟩]⟩ TokenString.empty).2) :=
  ⟨rfl, rfl,
    C8_validate_pure ⟨"k", 7, []⟩ ⟨"k", 7, [⟨"u1", none, none, none⟩]⟩
      TokenString.empty rfl rfl⟩

/-- Case analysis of one run of the `Authentication` middleware: the request
is rejected for a missing header, the validator panics, the request is
rejected with the validator's message, or the validator succeeds and the
four identity keys are attached. -/
theorem Authentication_cases (key : String) (now : Int) (c : GinContext) :
    (headerGet c.reqHeaders "token" = TokenString.empty ∧
      Authentication key now c = GoResult.ok { c with
        statusBody := some (500, "No Authorization header provided"),
        aborted := true }) ∨
    (∃ m, Authentication key now c = GoResult.panic m) ∨
    (∃ copt msg, ValidateToken key now (headerGet c.reqHeaders "token") =
        GoResult.ok (copt, msg) ∧ msg ≠ "" ∧
      Authentication key now c = GoResult.ok { c with
        statusBody := some (500, msg), aborted := true }) ∨
    (∃ cl, ValidateToken key now (headerGet c.reqHeaders "token") =
        GoResult.ok (some cl, "") ∧
      Authentication key now c = GoResult.ok { c with keys := c.keys ++
        [("email", cl.email), ("first_name", cl.first_name),
         ("last_name", cl.last_name), ("uid", cl.uid)] }) := by
  by_cases hempty : headerGet c.reqHeaders "token" = TokenString.empty
  · exact Or.inl ⟨hempty, by simp [Authentication, hempty]⟩
  · cases hv : ValidateToken key now (headerGet c.reqHeaders "token") with
    | panic m => exact Or.inr (Or.inl ⟨m, by simp [Authentication, hempty, hv]⟩)
    | ok val =>
        obtain ⟨copt, msg⟩ := val
        by_cases hmsg : msg = ""
        · subst hmsg
          cases copt with
          | none =>
              exact Or.inr (Or.inl ⟨nilDerefMsg, by simp [Authentication, hempty, hv]⟩)
          | some cl =>
              exact Or.inr (Or.inr (Or.inr ⟨cl, rfl, by simp [Authentication, hempty, hv]⟩))
        · exact Or.inr (Or.inr (Or.inl
            ⟨copt, msg, rfl, hmsg, by simp [Authentication, hempty, hv, hmsg]⟩))

/-- C9: whenever the middleware writes a rejection response into a context
that had none, the status is 500 (`http.StatusInternalServerError`) — never
a 4xx status — for missing-header and validation-failure rejections alike. -/
theorem C9_reject_status_500 (key : String) (now : Int) (c c' : GinContext)
    (hinit : c.statusBody = none)
    (hrun : Authentication key now c = GoResult.ok c')
    (s : Nat) (m : String) (hresp : c'.statusBody = some (s, m)) :
    s = 500 ∧ ¬ (400 ≤ s ∧ s ≤ 499) := by
  have hs : s = 500 := by
    rcases Authentication_cases key now c with
      ⟨he, ha⟩ | ⟨m0, ha⟩ | ⟨copt, msg, hv, hmsg, ha⟩ | ⟨cl, hv, ha⟩
    · rw [ha] at hrun
      injection hrun with h
      rw [← h] at hresp
      simp at hresp
      obtain ⟨h1, h2⟩ := hresp
      omega
    · rw [ha] at hrun
      exact absurd hrun (by simp)
    · rw [ha] at hrun
      injection hrun with h
      rw [← h] at hresp
      simp at hresp
      obtain ⟨h1, h2⟩ := hresp
      omega
    · rw [ha] at hrun
      injection hrun with h
      rw [← h] at hresp
      simp [hinit] at hresp
  exact ⟨hs, by omega⟩

/-- Witness for C9 on a request carrying a token whose header segment fails
base64 decoding. -/
theorem C9_reject_status_500_witness :
    (⟨[("token", TokenString.badHeaderSegment "bad base64")], [], none, false⟩ :
      GinContext).statusBody = none ∧
    Authentication "k" 1
        ⟨[("token", TokenString.badHeaderSegment "bad base64")], [], none, false⟩ =
      GoResult.ok
        ⟨[("token", TokenString.badHeaderSegment "bad base64")], [],
          some (500, "bad base64"), true⟩ ∧
    (⟨[("token", TokenString.badHeaderSegment "bad base64")], [],
        some (500, "bad base64"), true⟩ : GinContext).statusBody =
      some (500, "bad base64") ∧
    (500 = 500 ∧ ¬ (400 ≤ 500 ∧ 500 ≤ 499)) :=
  ⟨rfl, by decide, rfl,
    C9_reject_status_500 "k" 1
      ⟨[("token", TokenString.badHeaderSegment "bad base64")], [], none, false⟩
      ⟨[("token", TokenString.badHeaderSegment "bad base64")], [],
        some (500, "bad base64"), true⟩
      rfl (by decide) 500 "bad base64" rfl⟩

/-- C10: starting from a context with no keys, a run of the middleware
either rejects (aborting with the context keys still empty — no identity
attribute is attached on any failure) or succeeds, attaching exactly the
four identity keys email, first_name, last_name and uid together. -/
theorem C10_identity_keys (key : String) (now : Int) (c c' : GinContext)
    (hkeys : c.keys = [])
    (hrun : Authentication key now c = GoResult.ok c') :
    (c'.keys = [] ∧ c'.aborted = true) ∨
    (∃ cl, ValidateToken key now (headerGet c.reqHeaders "token") =
        GoResult.ok (some cl, "") ∧
      c'.keys = [("email", cl.email), ("first_name", cl.first_name),
        ("last_name", cl.last_name), ("uid", cl.uid)] ∧
      c'.aborted = c.aborted) := by
  rcases Authentication_cases key now c with
    ⟨he, ha⟩ | ⟨m0, ha⟩ | ⟨copt, msg, hv, hmsg, ha⟩ | ⟨cl, hv, ha⟩
  · rw [ha] at hrun
    injection hrun with h
    left
    constructor
    · rw [← h]
      exact hkeys
    · rw [← h]
  · rw [ha] at hrun
    exact absurd hrun (by simp)
  · rw [ha] at hrun
    injection hrun with h
    left
    constructor
    · rw [← h]
      exact hkeys
    · rw [← h]
  · rw [ha] at hrun
    injection hrun with h
    right
    refine ⟨cl, hv, ?_, ?_⟩
    · rw [← h]
      simp [hkeys]
    · rw [← h]


/-- Witness for C10 on a request carrying a correctly signed unexpired
token: the middleware attaches exactly the four identity keys. -/
theorem C10_identity_keys_witness :
    (⟨[("token", signedString "k" ⟨"a@b.c", "Ada", "Lovelace", "u1", 100⟩)],
        [], none, false⟩ : GinContext).keys = [] ∧
    Authentication "k" 0
        ⟨[("token", signedString "k" ⟨"a@b.c", "Ada", "Lovelace", "u1", 100⟩)],
          [], none, false⟩ =
      GoResult.ok
        ⟨[("token", signedString "k" ⟨"a@b.c", "Ada", "Lovelace", "u1", 100⟩)],
          [("email", "a@b.c"), ("first_name", "Ada"),
            ("last_name", "Lovelace"), ("uid", "u1")], none, false⟩ ∧
    (((⟨[("token", signedString "k" ⟨"a@b.c", "Ada", "Lovelace", "u1", 100⟩)],
          [("email", "a@b.c"), ("first_name", "Ada"),
            ("last_name", "Lovelace"), ("uid", "u1")], none, false⟩ :
        GinContext).keys = [] ∧
      (⟨[("token", signedString "k" ⟨"a@b.c", "Ada", "Lovelace", "u1", 100⟩)],
          [("email", "a@b.c"), ("first_name", "Ada"),
            ("last_name", "Lovelace"), ("uid", "u1")], none, false⟩ :
        GinContext).aborted = true) ∨
    (∃ cl, ValidateToken "k" 0
        (headerGet
          (⟨[("token", signedString "k" ⟨"a@b.c", "Ada", "Lovelace", "u1", 100⟩)],
            [], none, false⟩ : GinContext).reqHeaders "token") =
          GoResult.ok (some cl, "") ∧
      (⟨[("token", signedString "k" ⟨"a@b.c", "Ada", "Lovelace", "u1", 100⟩)],
          [("email", "a@b.c"), ("first_name", "Ada"),
            ("last_name", "Lovelace"), ("uid", "u1")], none, false⟩ :
        GinContext).keys = [("email", cl.email), ("first_name", cl.first_name),
          ("last_name", cl.last_name), ("uid", cl.uid)] ∧
      (⟨[("token", signedString "k" ⟨"a@b.c", "Ada", "Lovelace", "u1", 100⟩)],
          [("email", "a@b.c"), ("first_name", "Ada"),
            ("last_name", "Lovelace"), ("uid", "u1")], none, false⟩ :
        GinContext).aborted =
        (⟨[("token", signedString "k" ⟨"a@b.c", "Ada", "Lovelace", "u1", 100⟩)],
            [], none, false⟩ : GinContext).aborted)) :=
  ⟨rfl, by decide,
    C10_identity_keys "k" 0
      ⟨[("token", signedString "k" ⟨"a@b.c", "Ada", "Lovelace", "u1", 100⟩)],
        [], none, false⟩
      ⟨[("token", signedString "k" ⟨"a@b.c", "Ada", "Lovelace", "u1", 100⟩)],
        [("email", "a@b.c"), ("first_name", "Ada"),
          ("last_name", "Lovelace"), ("uid", "u1")], none, false⟩
      rfl (by decide)⟩
